import Mathlib

/-! Hessra PostgreSQL authorization plugin (`hessra_authz.c`).

A shallow embedding of the two SQL-callable functions of the plugin,
`pg_verify_hessra_token` and `pg_verify_hessra_service_chain`, together with the
properties of their control flow.

The verification engine behind `hessra_ffi.h` is external to the plugin: it is a
parameter of the development (`Engine`), with an arbitrary internal state, so
every statement below holds for every behaviour of the engine.  The PostgreSQL
host services used by the plugin (`ereport`, `pfree`, `text_to_cstring`) are
modelled by their documented behaviour; in particular `ereport` at level `ERROR`
does not return to its caller.
-/

namespace Hessra

/-! ## Data model -/

/-- Value of a C `char *`: `none` is the NULL pointer, `some s` points to the
NUL-terminated text `s`. -/
abbrev CStr := Option String

/-- Value of a `HessraPublicKey *`, as an address; address `0` is NULL. -/
abbrev KeyPtr := Nat

/-- The NULL key handle. -/
def NULL : KeyPtr := 0

/-- The `HessraResult` enumeration of `hessra_ffi.h`, as its integer code. -/
abbrev HessraResult := Int

/-- PostgreSQL `text` datum, as the string it holds. -/
abbrev text := String

/-- PostgreSQL `text_to_cstring`: a freshly allocated C string with the content
of the datum. -/
def text_to_cstring (t : text) : String := t

/-- `#define HESSRA_PUBLIC_KEY_PATH` (line 24). -/
def HESSRA_PUBLIC_KEY_PATH : String := "/etc/postgresql/hessra_key.pem"

/-- `#define HESSRA_CONFIG_KEY_PATH` (line 25). -/
def HESSRA_CONFIG_KEY_PATH : String := "hessra.public_key_path"

/-- The character `s[0]` of a C string: the terminating NUL when it is empty. -/
def firstChar (s : String) : Char := s.data.headD (Char.ofNat 0)

/-- Rendering of a `%s` argument by PostgreSQL's `errmsg`. -/
def fmtS : CStr → String
  | none => "(null)"
  | some s => s

/-- Error levels of `elog.h` used by the plugin. -/
inductive ELevel
  | DEBUG1
  | ERROR
  deriving DecidableEq, Repr

/-- SQLSTATE codes of `errcodes.h` used by the plugin. -/
inductive SqlErrCode
  | ERRCODE_SUCCESSFUL_COMPLETION
  | ERRCODE_EXTERNAL_ROUTINE_INVOCATION_EXCEPTION
  deriving DecidableEq, Repr

/-- One `ereport` call: level, the `errcode(...)` given (if any) and the
formatted `errmsg(...)`. -/
structure ErrorData where
  elevel : ELevel
  sqlerrcode : Option SqlErrCode
  message : String
  deriving DecidableEq, Repr

/-- Observable events of one call: engine calls (with arguments and returned
values) and host calls. -/
inductive Event
  | public_key_from_file (path : CStr) (ret : HessraResult) (out : KeyPtr)
  | token_verify (token : String) (key : KeyPtr) (subject resource : String)
      (ret : HessraResult)
  | token_verify_service_chain (token : String) (key : KeyPtr)
      (subject resource service_nodes_json component : String) (ret : HessraResult)
  | error_message (code : HessraResult) (ret : CStr)
  | string_free (s : CStr)
  | public_key_free (key : KeyPtr)
  | ereport (e : ErrorData)
  | pfree (p : String)
  deriving DecidableEq, Repr

/-- The functions and the `SUCCESS` constant declared by `hessra_ffi.h`, over an
arbitrary engine state `σ`.  `hessra_public_key_from_file path out` receives the
current content of the out-parameter and returns the result code together with
the content of the out-parameter after the call. -/
structure Engine (σ : Type) where
  SUCCESS : HessraResult
  hessra_public_key_from_file : CStr → KeyPtr → σ → (HessraResult × KeyPtr) × σ
  hessra_token_verify : String → KeyPtr → String → String → σ → HessraResult × σ
  hessra_token_verify_service_chain :
    String → KeyPtr → String → String → String → String → σ → HessraResult × σ
  hessra_error_message : HessraResult → σ → CStr × σ
  hessra_string_free : CStr → σ → σ
  hessra_public_key_free : KeyPtr → σ → σ

/-- Process state seen by one call: the global `hessra_public_key_path`
(line 28, set by the configuration system), the engine state and the events so
far. -/
structure World (σ : Type) where
  hessra_public_key_path : CStr
  engine : σ
  trace : List Event

/-- How a call ends: with a return value, or in an `ERROR` report. -/
inductive Outcome (α : Type)
  | ret (a : α)
  | error (e : ErrorData)
  deriving DecidableEq, Repr

/-- Computations of the plugin: state passing with non-local exit. -/
def Exec (σ α : Type) := World σ → Outcome α × World σ

/-- Return a value without touching the state. -/
def Exec.pure {σ α : Type} (a : α) : Exec σ α := fun w => (Outcome.ret a, w)

/-- Sequencing: an `ERROR` exit skips the rest of the computation. -/
def Exec.bind {σ α β : Type} (m : Exec σ α) (f : α → Exec σ β) : Exec σ β :=
  fun w =>
    match m w with
    | (Outcome.ret a, w1) => f a w1
    | (Outcome.error e, w1) => (Outcome.error e, w1)

instance {σ : Type} : Monad (Exec σ) where
  pure := Exec.pure
  bind := Exec.bind

/-- Append one event to the trace. -/
def World.emit {σ : Type} (w : World σ) (e : Event) : World σ :=
  { w with trace := w.trace ++ [e] }

/-! ## Host services -/

/-- Read the global `hessra_public_key_path`. -/
def read_hessra_public_key_path {σ : Type} : Exec σ CStr :=
  fun w => (Outcome.ret w.hessra_public_key_path, w)

/-- PostgreSQL `ereport`: the report is emitted; at level `ERROR` control does
not return to the caller. -/
def ereport {σ : Type} (elevel : ELevel) (sqlerrcode : Option SqlErrCode)
    (message : String) : Exec σ Unit :=
  fun w =>
    let e : ErrorData := ⟨elevel, sqlerrcode, message⟩
    match elevel with
    | ELevel.ERROR => (Outcome.error e, w.emit (Event.ereport e))
    | ELevel.DEBUG1 => (Outcome.ret (), w.emit (Event.ereport e))

/-- PostgreSQL `pfree`. -/
def pfree {σ : Type} (p : String) : Exec σ Unit :=
  fun w => (Outcome.ret (), w.emit (Event.pfree p))

/-! ## Engine calls -/

/-- Call `hessra_public_key_from_file(path, &public_key)`. -/
def hessra_public_key_from_file {σ : Type} (E : Engine σ) (path : CStr)
    (public_key : KeyPtr) : Exec σ (HessraResult × KeyPtr) :=
  fun w =>
    let r := E.hessra_public_key_from_file path public_key w.engine
    (Outcome.ret r.1,
      { w with engine := r.2,
               trace := w.trace ++ [Event.public_key_from_file path r.1.1 r.1.2] })

/-- Call `hessra_token_verify(token, key, subject, resource)`. -/
def hessra_token_verify {σ : Type} (E : Engine σ) (token : String) (key : KeyPtr)
    (subject resource : String) : Exec σ HessraResult :=
  fun w =>
    let r := E.hessra_token_verify token key subject resource w.engine
    (Outcome.ret r.1,
      { w with engine := r.2,
               trace := w.trace ++ [Event.token_verify token key subject resource r.1] })

/-- Call `hessra_token_verify_service_chain(token, key, subject, resource,
service_nodes_json, component)`. -/
def hessra_token_verify_service_chain {σ : Type} (E : Engine σ) (token : String)
    (key : KeyPtr) (subject resource service_nodes_json component : String) :
    Exec σ HessraResult :=
  fun w =>
    let r := E.hessra_token_verify_service_chain token key subject resource
      service_nodes_json component w.engine
    (Outcome.ret r.1,
      { w with engine := r.2,
               trace := w.trace ++ [Event.token_verify_service_chain token key subject
                 resource service_nodes_json component r.1] })

/-- Call `hessra_error_message(code)`. -/
def hessra_error_message {σ : Type} (E : Engine σ) (code : HessraResult) :
    Exec σ CStr :=
  fun w =>
    let r := E.hessra_error_message code w.engine
    (Outcome.ret r.1,
      { w with engine := r.2, trace := w.trace ++ [Event.error_message code r.1] })

/-- Call `hessra_string_free(s)`. -/
def hessra_string_free {σ : Type} (E : Engine σ) (s : CStr) : Exec σ Unit :=
  fun w =>
    (Outcome.ret (),
      { w with engine := E.hessra_string_free s w.engine,
               trace := w.trace ++ [Event.string_free s] })

/-- Call `hessra_public_key_free(key)`. -/
def hessra_public_key_free {σ : Type} (E : Engine σ) (key : KeyPtr) : Exec σ Unit :=
  fun w =>
    (Outcome.ret (),
      { w with engine := E.hessra_public_key_free key w.engine,
               trace := w.trace ++ [Event.public_key_free key] })

/-! ## The SQL-callable functions -/

/-- The test `p != NULL && p[0] != 0` of lines 100 and 199. -/
def isConfigured : CStr → Bool
  | none => false
  | some s => firstChar s != Char.ofNat 0

/-- `pg_verify_hessra_token` (lines 79-160). -/
def pg_verify_hessra_token {σ : Type} (E : Engine σ)
    (token_text subject_text resource_text : text) : Exec σ Bool := do
  let token_cstr := text_to_cstring token_text
  let subject_cstr := text_to_cstring subject_text
  let resource_cstr := text_to_cstring resource_text
  let public_key : KeyPtr := NULL
  -- 1. configured path, or the default
  let hessra_public_key_path ← read_hessra_public_key_path
  let key_path_cstr : CStr ←
    if isConfigured hessra_public_key_path then do
      let key_path_cstr := hessra_public_key_path
      ereport ELevel.DEBUG1 (some SqlErrCode.ERRCODE_SUCCESSFUL_COMPLETION)
        ("Using configured key path: " ++ fmtS key_path_cstr)
      pure key_path_cstr
    else do
      let key_path_cstr : CStr := some HESSRA_PUBLIC_KEY_PATH
      ereport ELevel.DEBUG1 (some SqlErrCode.ERRCODE_SUCCESSFUL_COMPLETION)
        ("Using default key path: " ++ fmtS key_path_cstr)
      pure key_path_cstr
  -- 2. load the public key
  let (key_load_result, public_key) ← hessra_public_key_from_file E key_path_cstr public_key
  if key_load_result ≠ E.SUCCESS ∨ public_key = NULL then do
    let err_msg ← hessra_error_message E key_load_result
    let safe_err_msg : CStr :=
      if err_msg ≠ none then err_msg else some "Unknown key loading error"
    ereport ELevel.ERROR (some SqlErrCode.ERRCODE_EXTERNAL_ROUTINE_INVOCATION_EXCEPTION)
      ("Failed to load Hessra public key from " ++ fmtS key_path_cstr ++ ": "
        ++ fmtS safe_err_msg)
    if err_msg ≠ none then
      hessra_string_free E err_msg
    pfree token_cstr
    pfree subject_cstr
    pfree resource_cstr
    pure false
  else do
    -- 3. verify
    let verify_result ← hessra_token_verify E token_cstr public_key subject_cstr resource_cstr
    -- 4. process the result
    let is_valid : Bool := if verify_result = E.SUCCESS then true else false
    -- 5. clean up
    if public_key ≠ NULL then
      hessra_public_key_free E public_key
    pfree token_cstr
    pfree subject_cstr
    pfree resource_cstr
    -- 6. return
    pure is_valid

/-- `pg_verify_hessra_service_chain` (lines 175-274). -/
def pg_verify_hessra_service_chain {σ : Type} (E : Engine σ)
    (token_text subject_text resource_text service_nodes_json_text component_text : text) :
    Exec σ Bool := do
  let token_cstr := text_to_cstring token_text
  let subject_cstr := text_to_cstring subject_text
  let resource_cstr := text_to_cstring resource_text
  let service_nodes_json_cstr := text_to_cstring service_nodes_json_text
  let component_cstr := text_to_cstring component_text
  let public_key : KeyPtr := NULL
  -- 1. configured path, or the default
  let hessra_public_key_path ← read_hessra_public_key_path
  let key_path_cstr : CStr ←
    if isConfigured hessra_public_key_path then do
      let key_path_cstr := hessra_public_key_path
      ereport ELevel.DEBUG1 (some SqlErrCode.ERRCODE_SUCCESSFUL_COMPLETION)
        ("Using configured key path: " ++ fmtS key_path_cstr)
      pure key_path_cstr
    else do
      let key_path_cstr : CStr := some HESSRA_PUBLIC_KEY_PATH
      ereport ELevel.DEBUG1 (some SqlErrCode.ERRCODE_SUCCESSFUL_COMPLETION)
        ("Using default key path: " ++ fmtS key_path_cstr)
      pure key_path_cstr
  -- 2. load the public key
  let (key_load_result, public_key) ← hessra_public_key_from_file E key_path_cstr public_key
  if key_load_result ≠ E.SUCCESS ∨ public_key = NULL then do
    let err_msg ← hessra_error_message E key_load_result
    let safe_err_msg : CStr :=
      if err_msg ≠ none then err_msg else some "Unknown key loading error"
    ereport ELevel.ERROR (some SqlErrCode.ERRCODE_EXTERNAL_ROUTINE_INVOCATION_EXCEPTION)
      ("Failed to load Hessra public key from " ++ fmtS key_path_cstr ++ ": "
        ++ fmtS safe_err_msg)
    if err_msg ≠ none then
      hessra_string_free E err_msg
    pfree token_cstr
    pfree subject_cstr
    pfree resource_cstr
    pfree service_nodes_json_cstr
    pfree component_cstr
    pure false
  else do
    -- 3. verify
    let verify_result ← hessra_token_verify_service_chain E token_cstr public_key
      subject_cstr resource_cstr service_nodes_json_cstr component_cstr
    -- 4. process the result
    let is_valid : Bool ←
      if verify_result = E.SUCCESS then
        pure true
      else do
        let err_msg ← hessra_error_message E verify_result
        let safe_err_msg : CStr :=
          if err_msg ≠ none then err_msg else some "Unknown verification error"
        ereport ELevel.DEBUG1 none
          ("Hessra service chain verification failed: " ++ fmtS safe_err_msg)
        if err_msg ≠ none then
          hessra_string_free E err_msg
        pure false
    -- 5. clean up
    if public_key ≠ NULL then
      hessra_public_key_free E public_key
    pfree token_cstr
    pfree subject_cstr
    pfree resource_cstr
    pfree service_nodes_json_cstr
    pfree component_cstr
    -- 6. return
    pure is_valid


/-! ## Reading traces -/

/-- The key path selected by the configuration, in the words of the
specification: the configured value when it is non-null and its first character
is not NUL, the default path otherwise. -/
def configuredKeyPath (cfg : CStr) : String :=
  match cfg with
  | none => HESSRA_PUBLIC_KEY_PATH
  | some s => if firstChar s = Char.ofNat 0 then HESSRA_PUBLIC_KEY_PATH else s

/-- The DEBUG1 report of step 1 of both functions. -/
def keyPathReport (cfg : CStr) : ErrorData :=
  if isConfigured cfg then
    ⟨ELevel.DEBUG1, some SqlErrCode.ERRCODE_SUCCESSFUL_COMPLETION,
      "Using configured key path: " ++ configuredKeyPath cfg⟩
  else
    ⟨ELevel.DEBUG1, some SqlErrCode.ERRCODE_SUCCESSFUL_COMPLETION,
      "Using default key path: " ++ configuredKeyPath cfg⟩

/-- The text printed for an error message, with the fallback used when the
engine returns NULL. -/
def safeMessage (err_msg : CStr) (fallback : String) : String :=
  match err_msg with
  | none => fallback
  | some m => m

/-- The ERROR report of a failed key load. -/
def keyLoadError (path : String) (err_msg : CStr) : ErrorData :=
  ⟨ELevel.ERROR, some SqlErrCode.ERRCODE_EXTERNAL_ROUTINE_INVOCATION_EXCEPTION,
    "Failed to load Hessra public key from " ++ path ++ ": " ++
      safeMessage err_msg "Unknown key loading error"⟩

/-- The DEBUG1 report of a failed service-chain verification. -/
def chainFailureReport (err_msg : CStr) : ErrorData :=
  ⟨ELevel.DEBUG1, none,
    "Hessra service chain verification failed: " ++
      safeMessage err_msg "Unknown verification error"⟩

/-- The `hessra_string_free` event of an error message, present when the
message is not NULL. -/
def stringFreeEvents (err_msg : CStr) : List Event :=
  if err_msg = none then [] else [Event.string_free err_msg]

/-- Engine state after the conditional `hessra_string_free`. -/
def stringFreeState {σ : Type} (E : Engine σ) (err_msg : CStr) (s : σ) : σ :=
  if err_msg = none then s else E.hessra_string_free err_msg s

/-- A call of one of the two SQL functions, with its arguments. -/
inductive SqlCall
  | verify_token (token subject resource : text)
  | verify_service_chain (token subject resource service_nodes_json component : text)
  deriving DecidableEq, Repr

/-- Run the SQL function a call names. -/
def SqlCall.exec {σ : Type} (E : Engine σ) : SqlCall → Exec σ Bool
  | SqlCall.verify_token t s r => pg_verify_hessra_token E t s r
  | SqlCall.verify_service_chain t s r j c => pg_verify_hessra_service_chain E t s r j c

/-- The events a computation adds to the trace of the world it starts from. -/
def emitted {σ α : Type} (w : World σ) (r : Outcome α × World σ) : List Event :=
  r.2.trace.drop w.trace.length

/-- Calls of the functions of `hessra_ffi.h`, as opposed to host calls. -/
def Event.isEngineCall : Event → Bool
  | Event.ereport _ => false
  | Event.pfree _ => false
  | _ => true

/-- The engine calls of a trace, in order. -/
def engineCalls (tr : List Event) : List Event := tr.filter Event.isEngineCall

/-- Calls of `hessra_public_key_from_file`. -/
def Event.isKeyLoad : Event → Bool
  | Event.public_key_from_file _ _ _ => true
  | _ => false

/-- Calls of `hessra_token_verify` or `hessra_token_verify_service_chain`. -/
def Event.isVerify : Event → Bool
  | Event.token_verify _ _ _ _ _ => true
  | Event.token_verify_service_chain _ _ _ _ _ _ _ => true
  | _ => false

/-- Calls of `hessra_public_key_free`. -/
def Event.isKeyFree : Event → Bool
  | Event.public_key_free _ => true
  | _ => false

/-- The key handle an engine call receives as an argument, if any. -/
def Event.keyArg : Event → Option KeyPtr
  | Event.token_verify _ k _ _ _ => some k
  | Event.token_verify_service_chain _ k _ _ _ _ _ => some k
  | Event.public_key_free k => some k
  | _ => none

/-- The path arguments of the `hessra_public_key_from_file` calls of a trace. -/
def keyLoadPaths (tr : List Event) : List CStr :=
  tr.filterMap fun e =>
    match e with
    | Event.public_key_from_file p _ _ => some p
    | _ => none

/-- The verification call a SQL call makes with key `k`, returning `code`. -/
def SqlCall.verifyEvent (k : KeyPtr) (code : HessraResult) : SqlCall → Event
  | SqlCall.verify_token t s r => Event.token_verify t k s r code
  | SqlCall.verify_service_chain t s r j c =>
      Event.token_verify_service_chain t k s r j c code

/-! ## A concrete engine -/

/-- An engine for concrete runs.  Its state counts the calls made so far; its
results depend on the arguments only.  It accepts the key file at the default
path (handle `4096`) and a token of the form `subject:resource`; code `0` is
`SUCCESS`, and it has no message for code `5`. -/
def demoEngine : Engine Nat where
  SUCCESS := 0
  hessra_public_key_from_file := fun p _ n =>
    (if p = some HESSRA_PUBLIC_KEY_PATH then (0, 4096) else (2, 0), n + 1)
  hessra_token_verify := fun t k s r n =>
    (if k = 4096 ∧ t = s ++ ":" ++ r then 0 else 5, n + 1)
  hessra_token_verify_service_chain := fun t k s r j c n =>
    (if k = 4096 ∧ t = s ++ ":" ++ r ∧ j = c then 0 else 6, n + 1)
  hessra_error_message := fun c n =>
    (if c = 2 then some "key file not found"
      else if c = 6 then some "component not in chain" else none, n + 1)
  hessra_string_free := fun _ n => n + 1
  hessra_public_key_free := fun _ n => n + 1

/-- A fresh process with the given configured key path. -/
def demoWorld (cfg : CStr) : World Nat :=
  { hessra_public_key_path := cfg, engine := 0, trace := [] }

theorem bind_apply {σ α β : Type} (m : Exec σ α) (f : α → Exec σ β) (w : World σ) :
    (m >>= f) w = match m w with
      | (Outcome.ret a, w1) => f a w1
      | (Outcome.error e, w1) => (Outcome.error e, w1) := rfl

theorem pure_apply {σ α : Type} (a : α) (w : World σ) :
    (pure a : Exec σ α) w = (Outcome.ret a, w) := rfl

theorem ite_exec_apply {σ α : Type} (c : Prop) [Decidable c] (m n : Exec σ α)
    (w : World σ) : (if c then m else n) w = if c then m w else n w := by
  split <;> rfl

theorem fmtS_safe (m : CStr) (d : String) :
    fmtS (if m = none then some d else m) = safeMessage m d := by
  cases m <;> simp [fmtS, safeMessage]

theorem cfg_cases (cfg : CStr) :
    cfg = none ∨ (∃ p, cfg = some p ∧ firstChar p = Char.ofNat 0) ∨
      (∃ p, cfg = some p ∧ firstChar p ≠ Char.ofNat 0) := by
  cases cfg with
  | none => exact Or.inl rfl
  | some p =>
    by_cases hp : firstChar p = Char.ofNat 0
    · exact Or.inr (Or.inl ⟨p, rfl, hp⟩)
    · exact Or.inr (Or.inr ⟨p, rfl, hp⟩)

/-- Result of `pg_verify_hessra_token` on its two paths. -/
theorem token_run {σ : Type} (E : Engine σ) (t s r : text) (w : World σ) :
    pg_verify_hessra_token E t s r w =
      (let path := configuredKeyPath w.hessra_public_key_path
       let ld := E.hessra_public_key_from_file (some path) NULL w.engine
       if ld.1.1 ≠ E.SUCCESS ∨ ld.1.2 = NULL then
         let em := E.hessra_error_message ld.1.1 ld.2
         (Outcome.error (keyLoadError path em.1),
          { hessra_public_key_path := w.hessra_public_key_path,
            engine := em.2,
            trace := w.trace ++
              [Event.ereport (keyPathReport w.hessra_public_key_path),
               Event.public_key_from_file (some path) ld.1.1 ld.1.2,
               Event.error_message ld.1.1 em.1,
               Event.ereport (keyLoadError path em.1)] })
       else
         let v := E.hessra_token_verify t ld.1.2 s r ld.2
         (Outcome.ret (decide (v.1 = E.SUCCESS)),
          { hessra_public_key_path := w.hessra_public_key_path,
            engine := E.hessra_public_key_free ld.1.2 v.2,
            trace := w.trace ++
              [Event.ereport (keyPathReport w.hessra_public_key_path),
               Event.public_key_from_file (some path) ld.1.1 ld.1.2,
               Event.token_verify t ld.1.2 s r v.1,
               Event.public_key_free ld.1.2,
               Event.pfree t, Event.pfree s, Event.pfree r] })) := by
  rcases w with ⟨cfg, eng, tr⟩
  rcases cfg_cases cfg with rfl | ⟨p, rfl, hp⟩ | ⟨p, rfl, hp⟩ <;>
  · simp only [configuredKeyPath, *, if_true, if_false]
    split_ifs with h <;>
    · simp [pg_verify_hessra_token, read_hessra_public_key_path, ereport, pfree,
        hessra_public_key_from_file, hessra_token_verify, hessra_error_message,
        hessra_string_free, hessra_public_key_free, World.emit, text_to_cstring, bind_apply,
        pure_apply, ite_exec_apply, isConfigured, configuredKeyPath, *, keyPathReport,
        keyLoadError, fmtS_safe]
      try simp [fmtS]
      try (simp only [not_or, not_not] at h; simp [h.2])

/-- Result of `pg_verify_hessra_service_chain` on its three paths. -/
theorem chain_run {σ : Type} (E : Engine σ) (t s r j c : text) (w : World σ) :
    pg_verify_hessra_service_chain E t s r j c w =
      (let path := configuredKeyPath w.hessra_public_key_path
       let ld := E.hessra_public_key_from_file (some path) NULL w.engine
       if ld.1.1 ≠ E.SUCCESS ∨ ld.1.2 = NULL then
         let em := E.hessra_error_message ld.1.1 ld.2
         (Outcome.error (keyLoadError path em.1),
          { hessra_public_key_path := w.hessra_public_key_path,
            engine := em.2,
            trace := w.trace ++
              [Event.ereport (keyPathReport w.hessra_public_key_path),
               Event.public_key_from_file (some path) ld.1.1 ld.1.2,
               Event.error_message ld.1.1 em.1,
               Event.ereport (keyLoadError path em.1)] })
       else
         let v := E.hessra_token_verify_service_chain t ld.1.2 s r j c ld.2
         if v.1 = E.SUCCESS then
           (Outcome.ret true,
            { hessra_public_key_path := w.hessra_public_key_path,
              engine := E.hessra_public_key_free ld.1.2 v.2,
              trace := w.trace ++
                [Event.ereport (keyPathReport w.hessra_public_key_path),
                 Event.public_key_from_file (some path) ld.1.1 ld.1.2,
                 Event.token_verify_service_chain t ld.1.2 s r j c v.1,
                 Event.public_key_free ld.1.2,
                 Event.pfree t, Event.pfree s, Event.pfree r, Event.pfree j,
                 Event.pfree c] })
         else
           let em := E.hessra_error_message v.1 v.2
           (Outcome.ret false,
            { hessra_public_key_path := w.hessra_public_key_path,
              engine := E.hessra_public_key_free ld.1.2 (stringFreeState E em.1 em.2),
              trace := w.trace ++
                ([Event.ereport (keyPathReport w.hessra_public_key_path),
                  Event.public_key_from_file (some path) ld.1.1 ld.1.2,
                  Event.token_verify_service_chain t ld.1.2 s r j c v.1,
                  Event.error_message v.1 em.1,
                  Event.ereport (chainFailureReport em.1)] ++
                 stringFreeEvents em.1 ++
                 [Event.public_key_free ld.1.2,
                  Event.pfree t, Event.pfree s, Event.pfree r, Event.pfree j,
                  Event.pfree c]) })) := by
  rcases w with ⟨cfg, eng, tr⟩
  rcases cfg_cases cfg with rfl | ⟨p, rfl, hp⟩ | ⟨p, rfl, hp⟩ <;>
  · simp only [configuredKeyPath, *, if_true, if_false]
    split_ifs with h hv <;>
    · simp [pg_verify_hessra_service_chain, read_hessra_public_key_path, ereport, pfree,
        hessra_public_key_from_file, hessra_token_verify_service_chain,
        hessra_error_message, hessra_string_free, hessra_public_key_free, World.emit,
        text_to_cstring, bind_apply, pure_apply, ite_exec_apply, isConfigured,
        configuredKeyPath, *, keyPathReport, keyLoadError, chainFailureReport, fmtS_safe]
      try simp [fmtS]
      try (simp only [not_or, not_not] at h; simp [h.2])
      try (simp only [stringFreeEvents, stringFreeState]; split_ifs <;> simp)


theorem emitted_append {σ α : Type} (w : World σ) (o : Outcome α) (cfg : CStr) (eng : σ)
    (l : List Event) :
    emitted w (o, { hessra_public_key_path := cfg, engine := eng, trace := w.trace ++ l })
      = l := by
  simp [emitted]

theorem firstChar_empty : firstChar "" = Char.ofNat 0 := rfl

theorem configuredKeyPath_ne_empty (cfg : CStr) : configuredKeyPath cfg ≠ "" := by
  rcases cfg_cases cfg with rfl | ⟨p, rfl, hp⟩ | ⟨p, rfl, hp⟩
  · simp [configuredKeyPath, HESSRA_PUBLIC_KEY_PATH]
  · simp [configuredKeyPath, hp, HESSRA_PUBLIC_KEY_PATH]
  · simp only [configuredKeyPath, hp, if_false]
    intro h
    exact hp (h ▸ firstChar_empty)

/-- The `hessra_public_key_from_file` event of a call records the engine's
answer for the configured path, from the engine state the call started in. -/
theorem load_event {σ : Type} (E : Engine σ) (call : SqlCall) (w : World σ)
    (p : CStr) (code : HessraResult) (k : KeyPtr)
    (h : Event.public_key_from_file p code k ∈ emitted w (call.exec E w)) :
    p = some (configuredKeyPath w.hessra_public_key_path) ∧
    code = (E.hessra_public_key_from_file
      (some (configuredKeyPath w.hessra_public_key_path)) NULL w.engine).1.1 ∧
    k = (E.hessra_public_key_from_file
      (some (configuredKeyPath w.hessra_public_key_path)) NULL w.engine).1.2 := by
  revert h
  cases call <;> simp only [SqlCall.exec, token_run, chain_run] <;> split_ifs <;>
    simp [emitted_append, stringFreeEvents]

/-- No call writes the global `hessra_public_key_path`. -/
theorem path_unchanged {σ : Type} (E : Engine σ) (call : SqlCall) (w : World σ) :
    (call.exec E w).2.hessra_public_key_path = w.hessra_public_key_path := by
  cases call <;> simp only [SqlCall.exec, token_run, chain_run] <;> split_ifs <;> rfl

/-- With an engine whose results depend on its arguments only, the outcome of a
call depends on the configured path and the arguments only. -/
theorem outcome_eq {σ : Type} (E : Engine σ)
    (hload : ∀ p o s1 s2,
      (E.hessra_public_key_from_file p o s1).1 = (E.hessra_public_key_from_file p o s2).1)
    (hverify : ∀ t k s r s1 s2,
      (E.hessra_token_verify t k s r s1).1 = (E.hessra_token_verify t k s r s2).1)
    (hchain : ∀ t k s r j c s1 s2,
      (E.hessra_token_verify_service_chain t k s r j c s1).1
        = (E.hessra_token_verify_service_chain t k s r j c s2).1)
    (hmsg : ∀ c s1 s2,
      (E.hessra_error_message c s1).1 = (E.hessra_error_message c s2).1)
    (call : SqlCall) (w1 w2 : World σ)
    (hcfg : w1.hessra_public_key_path = w2.hessra_public_key_path) :
    (call.exec E w1).1 = (call.exec E w2).1 := by
  have h1 := hload (some (configuredKeyPath w2.hessra_public_key_path)) NULL
    w1.engine w2.engine
  cases call with
  | verify_token t s r =>
    simp only [SqlCall.exec, token_run, hcfg]
    rcases hl1 : E.hessra_public_key_from_file
      (some (configuredKeyPath w2.hessra_public_key_path)) NULL w1.engine with ⟨⟨c1, k1⟩, s1⟩
    rcases hl2 : E.hessra_public_key_from_file
      (some (configuredKeyPath w2.hessra_public_key_path)) NULL w2.engine with ⟨⟨c2, k2⟩, s2⟩
    rw [hl1, hl2] at h1
    simp only [Prod.mk.injEq] at h1
    obtain ⟨rfl, rfl⟩ := h1
    simp only []
    split_ifs
    · simp [hmsg c1 s1 s2]
    · simp [hverify t k1 s r s1 s2]
  | verify_service_chain t s r j c =>
    simp only [SqlCall.exec, chain_run, hcfg]
    rcases hl1 : E.hessra_public_key_from_file
      (some (configuredKeyPath w2.hessra_public_key_path)) NULL w1.engine with ⟨⟨c1, k1⟩, s1⟩
    rcases hl2 : E.hessra_public_key_from_file
      (some (configuredKeyPath w2.hessra_public_key_path)) NULL w2.engine with ⟨⟨c2, k2⟩, s2⟩
    rw [hl1, hl2] at h1
    simp only [Prod.mk.injEq] at h1
    obtain ⟨rfl, rfl⟩ := h1
    simp only []
    rw [hchain t k1 s r j c s1 s2]
    split_ifs
    · simp [hmsg c1 s1 s2]
    · rfl
    · rfl

/-! ## Properties -/

/-- C3: in both SQL functions the only path handed to
`hessra_public_key_from_file` is the configured `hessra_public_key_path` when it
is non-null and its first character is not NUL, and the default
`/etc/postgresql/hessra_key.pem` otherwise; it is the same for both functions
and for all arguments. -/
theorem key_path_resolution {σ : Type} (E : Engine σ) (call : SqlCall) (w : World σ) :
    keyLoadPaths (emitted w (call.exec E w))
      = [some (configuredKeyPath w.hessra_public_key_path)] := by
  cases call <;> simp only [SqlCall.exec, token_run, chain_run] <;> split_ifs <;>
    simp [emitted_append, keyLoadPaths, stringFreeEvents]

/-- C10: for every value of the global `hessra_public_key_path` (null, empty or
not) the path argument of `hessra_public_key_from_file` in either SQL function
is a non-null, non-empty string. -/
theorem key_path_usable {σ : Type} (E : Engine σ) (call : SqlCall) (w : World σ) :
    ∃ p : String, keyLoadPaths (emitted w (call.exec E w)) = [some p] ∧ p ≠ "" := by
  refine ⟨configuredKeyPath w.hessra_public_key_path, ?_, configuredKeyPath_ne_empty _⟩
  cases call <;> simp only [SqlCall.exec, token_run, chain_run] <;> split_ifs <;>
    simp [emitted_append, keyLoadPaths, stringFreeEvents]

/-- C9: in every execution of either SQL function the first engine call is the
one call of `hessra_public_key_from_file`; the verification function is called
exactly once when that call returned `SUCCESS` with a non-null handle and not at
all otherwise. -/
theorem no_retries {σ : Type} (E : Engine σ) (call : SqlCall) (w : World σ) :
    ∃ (p : CStr) (code : HessraResult) (k : KeyPtr) (rest : List Event),
      engineCalls (emitted w (call.exec E w))
        = Event.public_key_from_file p code k :: rest ∧
      rest.filter Event.isKeyLoad = [] ∧
      (rest.filter Event.isVerify).length
        = (if code = E.SUCCESS ∧ k ≠ NULL then 1 else 0) := by
  cases call <;> simp only [SqlCall.exec, token_run, chain_run] <;> split_ifs with h <;>
    simp only [emitted_append, engineCalls, stringFreeEvents, List.filter_cons,
      List.filter_append, Event.isEngineCall, List.filter_nil, if_true, if_false,
      Bool.false_eq_true, List.cons_append, List.nil_append] <;>
    refine ⟨_, _, _, _, rfl, ?_, ?_⟩ <;>
    first
      | (split_ifs <;> simp_all [Event.isKeyLoad, Event.isVerify, Event.isEngineCall])
      | simp_all [Event.isKeyLoad, Event.isVerify, Event.isEngineCall]

/-- C7: in every execution of either SQL function, whatever code and handle
`hessra_public_key_from_file` produced, every verification call that follows
receives a non-null key that is exactly the handle written by that call. -/
theorem key_present_at_verification {σ : Type} (E : Engine σ) (call : SqlCall)
    (w : World σ) :
    ∃ (p : CStr) (code : HessraResult) (k : KeyPtr) (rest : List Event),
      engineCalls (emitted w (call.exec E w))
        = Event.public_key_from_file p code k :: rest ∧
      ∀ e ∈ rest, e.isVerify = true → e.keyArg = some k ∧ k ≠ NULL := by
  cases call <;> simp only [SqlCall.exec, token_run, chain_run] <;> split_ifs with h <;>
    simp only [emitted_append, engineCalls, stringFreeEvents, List.filter_cons,
      List.filter_append, Event.isEngineCall, List.filter_nil, if_true, if_false,
      Bool.false_eq_true, List.cons_append, List.nil_append] <;>
    refine ⟨_, _, _, _, rfl, ?_⟩ <;>
    first
      | (split_ifs <;> simp_all [Event.isVerify, Event.keyArg, Event.isEngineCall])
      | simp_all [Event.isVerify, Event.keyArg, Event.isEngineCall]

/-- C5: in every execution of either SQL function in which key loading
succeeded with a non-null handle `k`, the engine calls end with
`hessra_public_key_free(k)`, no other call of `hessra_public_key_free` is made,
and the single verification call comes before it; so `k` is released exactly
once, after verification, and is never used afterwards, whatever the
verification returned. -/
theorem key_released_once {σ : Type} (E : Engine σ) (call : SqlCall) (w : World σ)
    (p : CStr) (k : KeyPtr)
    (hload : Event.public_key_from_file p E.SUCCESS k ∈ emitted w (call.exec E w))
    (hk : k ≠ NULL) :
    ∃ (pre : List Event) (code : HessraResult),
      engineCalls (emitted w (call.exec E w)) = pre ++ [Event.public_key_free k] ∧
      pre.filter Event.isKeyFree = [] ∧
      pre.filter Event.isVerify = [call.verifyEvent k code] := by
  obtain ⟨-, hc, rfl⟩ := load_event E call w p E.SUCCESS k hload
  have hcond : ¬ ((E.hessra_public_key_from_file
      (some (configuredKeyPath w.hessra_public_key_path)) NULL w.engine).1.1 ≠ E.SUCCESS ∨
      (E.hessra_public_key_from_file
      (some (configuredKeyPath w.hessra_public_key_path)) NULL w.engine).1.2 = NULL) := by
    simp [← hc, hk]
  cases call with
  | verify_token t s r =>
    simp only [SqlCall.exec, token_run, if_neg hcond, emitted_append, engineCalls,
      List.filter_cons, Event.isEngineCall, List.filter_nil, if_true, if_false,
      Bool.false_eq_true]
    exact ⟨[_, _], _, rfl, rfl, rfl⟩
  | verify_service_chain t s r j c =>
    simp only [SqlCall.exec, chain_run, if_neg hcond]
    split_ifs with hv
    · simp only [emitted_append, engineCalls, List.filter_cons, Event.isEngineCall,
        List.filter_nil, if_true, if_false, Bool.false_eq_true]
      exact ⟨[_, _], _, rfl, rfl, rfl⟩
    · simp only [emitted_append, stringFreeEvents]
      split_ifs <;>
        simp only [engineCalls, List.filter_cons, List.filter_append, Event.isEngineCall,
          List.filter_nil, if_true, if_false, Bool.false_eq_true, List.cons_append,
          List.nil_append, List.append_nil]
      · exact ⟨[_, _, _], _, rfl, rfl, rfl⟩
      · exact ⟨[_, _, _, _], _, rfl, rfl, rfl⟩

/-- C1: `pg_verify_hessra_token` is fail-closed.  Whenever the key load of the
call returned `SUCCESS` and wrote a non-null handle `k`, the call makes exactly
one verification call, `hessra_token_verify(token, k, subject, resource)`, and
returns (without raising an error) `true` when that call returned `SUCCESS` and
`false` for every other result code. -/
theorem token_fail_closed {σ : Type} (E : Engine σ) (token subject resource : text)
    (w : World σ) (p : CStr) (k : KeyPtr)
    (hload : Event.public_key_from_file p E.SUCCESS k
      ∈ emitted w (pg_verify_hessra_token E token subject resource w))
    (hk : k ≠ NULL) :
    ∃ code : HessraResult,
      code = (E.hessra_token_verify token k subject resource
        (E.hessra_public_key_from_file p NULL w.engine).2).1 ∧
      (emitted w (pg_verify_hessra_token E token subject resource w)).filter Event.isVerify
        = [Event.token_verify token k subject resource code] ∧
      (pg_verify_hessra_token E token subject resource w).1
        = Outcome.ret (decide (code = E.SUCCESS)) ∧
      ((pg_verify_hessra_token E token subject resource w).1 = Outcome.ret true
        ↔ code = E.SUCCESS) := by
  obtain ⟨rfl, hc, rfl⟩ :=
    load_event E (SqlCall.verify_token token subject resource) w p E.SUCCESS k hload
  have hcond : ¬ ((E.hessra_public_key_from_file
      (some (configuredKeyPath w.hessra_public_key_path)) NULL w.engine).1.1 ≠ E.SUCCESS ∨
      (E.hessra_public_key_from_file
      (some (configuredKeyPath w.hessra_public_key_path)) NULL w.engine).1.2 = NULL) := by
    simp [← hc, hk]
  refine ⟨_, rfl, ?_, ?_, ?_⟩ <;>
    simp [token_run, if_neg hcond, emitted_append, Event.isVerify]

/-- C2: `pg_verify_hessra_service_chain` is fail-closed.  Whenever the key load
of the call returned `SUCCESS` and wrote a non-null handle `k`, the call makes
exactly one verification call, `hessra_token_verify_service_chain(token, k,
subject, resource, service_nodes_json, component)`, and returns `true` when that
call returned `SUCCESS` and `false` for every other result code; replacing
`hessra_error_message` by any other function leaves the result unchanged. -/
theorem service_chain_fail_closed {σ : Type} (E : Engine σ)
    (token subject resource service_nodes_json component : text)
    (w : World σ) (p : CStr) (k : KeyPtr)
    (hload : Event.public_key_from_file p E.SUCCESS k
      ∈ emitted w (pg_verify_hessra_service_chain E token subject resource
          service_nodes_json component w))
    (hk : k ≠ NULL) :
    ∃ code : HessraResult,
      code = (E.hessra_token_verify_service_chain token k subject resource
        service_nodes_json component
        (E.hessra_public_key_from_file p NULL w.engine).2).1 ∧
      (emitted w (pg_verify_hessra_service_chain E token subject resource
          service_nodes_json component w)).filter Event.isVerify
        = [Event.token_verify_service_chain token k subject resource
            service_nodes_json component code] ∧
      (pg_verify_hessra_service_chain E token subject resource
          service_nodes_json component w).1
        = Outcome.ret (decide (code = E.SUCCESS)) ∧
      ((pg_verify_hessra_service_chain E token subject resource
          service_nodes_json component w).1 = Outcome.ret true
        ↔ code = E.SUCCESS) ∧
      ∀ em : HessraResult → σ → CStr × σ,
        (pg_verify_hessra_service_chain { E with hessra_error_message := em }
            token subject resource service_nodes_json component w).1
          = Outcome.ret (decide (code = E.SUCCESS)) := by
  obtain ⟨rfl, hc, rfl⟩ :=
    load_event E
      (SqlCall.verify_service_chain token subject resource service_nodes_json component)
      w p E.SUCCESS k hload
  have hcond : ¬ ((E.hessra_public_key_from_file
      (some (configuredKeyPath w.hessra_public_key_path)) NULL w.engine).1.1 ≠ E.SUCCESS ∨
      (E.hessra_public_key_from_file
      (some (configuredKeyPath w.hessra_public_key_path)) NULL w.engine).1.2 = NULL) := by
    simp [← hc, hk]
  refine ⟨_, rfl, ?_, ?_, ?_, ?_⟩
  · simp only [chain_run, if_neg hcond]
    split_ifs <;> simp [emitted_append, Event.isVerify, stringFreeEvents]
  · simp only [chain_run, if_neg hcond]
    split_ifs with hv <;> simp [hv]
  · simp only [chain_run, if_neg hcond]
    split_ifs with hv <;> simp [hv]
  · intro em
    simp only [chain_run, if_neg hcond]
    split_ifs with hv <;> simp [hv]

/-- C4: key-load failure is terminal in both SQL functions.  When the key load
of the call returned a code other than `SUCCESS`, or left the handle null, the
call ends in the `ERROR` report with code
`ERRCODE_EXTERNAL_ROUTINE_INVOCATION_EXCEPTION` and message
`Failed to load Hessra public key from <path>: <msg>`, where `<path>` is the
path given to the loader and `<msg>` is the result of
`hessra_error_message(code)` or `Unknown key loading error` when that is null;
no verification call is made and the call does not return `true`. -/
theorem key_load_failure_terminal {σ : Type} (E : Engine σ) (call : SqlCall)
    (w : World σ) (p : CStr) (code : HessraResult) (k : KeyPtr)
    (hload : Event.public_key_from_file p code k ∈ emitted w (call.exec E w))
    (hfail : code ≠ E.SUCCESS ∨ k = NULL) :
    ∃ (path : String) (msg : CStr),
      p = some path ∧
      path = configuredKeyPath w.hessra_public_key_path ∧
      msg = (E.hessra_error_message code
        (E.hessra_public_key_from_file p NULL w.engine).2).1 ∧
      Event.error_message code msg ∈ emitted w (call.exec E w) ∧
      (call.exec E w).1 = Outcome.error
        ⟨ELevel.ERROR, some SqlErrCode.ERRCODE_EXTERNAL_ROUTINE_INVOCATION_EXCEPTION,
          "Failed to load Hessra public key from " ++ path ++ ": " ++
            safeMessage msg "Unknown key loading error"⟩ ∧
      (emitted w (call.exec E w)).getLast? = some (Event.ereport
        ⟨ELevel.ERROR, some SqlErrCode.ERRCODE_EXTERNAL_ROUTINE_INVOCATION_EXCEPTION,
          "Failed to load Hessra public key from " ++ path ++ ": " ++
            safeMessage msg "Unknown key loading error"⟩) ∧
      (emitted w (call.exec E w)).filter Event.isVerify = [] ∧
      (call.exec E w).1 ≠ Outcome.ret true := by
  obtain ⟨rfl, rfl, rfl⟩ := load_event E call w p code k hload
  refine ⟨_, _, rfl, rfl, rfl, ?_⟩
  cases call <;>
    simp [SqlCall.exec, token_run, chain_run, if_pos hfail, emitted_append, keyLoadError,
      Event.isVerify]

/-- C8: the shim is deterministic and keeps no state.  If the results of the
engine functions depend on their arguments only (not on the engine state), then
two calls of the same SQL function with equal arguments under the same
configured `hessra_public_key_path` end in the same outcome (the same boolean or
the same error), in particular a call and its repetition right after; and no
call changes `hessra_public_key_path`. -/
theorem shim_deterministic {σ : Type} (E : Engine σ)
    (hload : ∀ p o s1 s2,
      (E.hessra_public_key_from_file p o s1).1 = (E.hessra_public_key_from_file p o s2).1)
    (hverify : ∀ t k s r s1 s2,
      (E.hessra_token_verify t k s r s1).1 = (E.hessra_token_verify t k s r s2).1)
    (hchain : ∀ t k s r j c s1 s2,
      (E.hessra_token_verify_service_chain t k s r j c s1).1
        = (E.hessra_token_verify_service_chain t k s r j c s2).1)
    (hmsg : ∀ c s1 s2,
      (E.hessra_error_message c s1).1 = (E.hessra_error_message c s2).1)
    (call : SqlCall) (w1 w2 : World σ)
    (hcfg : w1.hessra_public_key_path = w2.hessra_public_key_path) :
    (call.exec E w1).1 = (call.exec E w2).1 ∧
    (call.exec E w1).1 = (call.exec E (call.exec E w1).2).1 ∧
    (call.exec E w1).2.hessra_public_key_path = w1.hessra_public_key_path :=
  ⟨outcome_eq E hload hverify hchain hmsg call w1 w2 hcfg,
   outcome_eq E hload hverify hchain hmsg call w1 (call.exec E w1).2
     (path_unchanged E call w1).symm,
   path_unchanged E call w1⟩


/-- C6 (evaluation of the code where the claim fails): with the configured path
`/nonexistent.pem` the engine refuses the key (code `2`) and
`hessra_error_message` returns the non-null string `key file not found`; in both
SQL functions the call then ends in the `ERROR` report and the engine calls made
are the key load and `hessra_error_message` only: `hessra_string_free` is never
called on the returned string. -/
theorem error_string_not_freed_on_key_load_failure :
    engineCalls (emitted (demoWorld (some "/nonexistent.pem"))
        (pg_verify_hessra_token demoEngine "alice:/orders" "alice" "/orders"
          (demoWorld (some "/nonexistent.pem"))))
      = [Event.public_key_from_file (some "/nonexistent.pem") 2 0,
         Event.error_message 2 (some "key file not found")] ∧
    engineCalls (emitted (demoWorld (some "/nonexistent.pem"))
        (pg_verify_hessra_service_chain demoEngine "alice:/orders" "alice" "/orders"
          "billing" "billing" (demoWorld (some "/nonexistent.pem"))))
      = [Event.public_key_from_file (some "/nonexistent.pem") 2 0,
         Event.error_message 2 (some "key file not found")] ∧
    (pg_verify_hessra_token demoEngine "alice:/orders" "alice" "/orders"
        (demoWorld (some "/nonexistent.pem"))).1
      = Outcome.error
          ⟨ELevel.ERROR, some SqlErrCode.ERRCODE_EXTERNAL_ROUTINE_INVOCATION_EXCEPTION,
            "Failed to load Hessra public key from /nonexistent.pem: key file not found"⟩ := by
  decide

/-! ## Concrete instances -/

/-- Instance of C1: the default key loads, the token `alice:/orders` is verified
for `alice` and `/orders`. -/
theorem token_fail_closed_witness :
    (4096 : KeyPtr) ≠ NULL ∧
    ∃ code : HessraResult,
      code = (demoEngine.hessra_token_verify "alice:/orders" 4096 "alice" "/orders"
        (demoEngine.hessra_public_key_from_file (some HESSRA_PUBLIC_KEY_PATH) NULL
          (demoWorld none).engine).2).1 ∧
      (emitted (demoWorld none)
          (pg_verify_hessra_token demoEngine "alice:/orders" "alice" "/orders"
            (demoWorld none))).filter Event.isVerify
        = [Event.token_verify "alice:/orders" 4096 "alice" "/orders" code] ∧
      (pg_verify_hessra_token demoEngine "alice:/orders" "alice" "/orders"
          (demoWorld none)).1
        = Outcome.ret (decide (code = demoEngine.SUCCESS)) ∧
      ((pg_verify_hessra_token demoEngine "alice:/orders" "alice" "/orders"
          (demoWorld none)).1 = Outcome.ret true
        ↔ code = demoEngine.SUCCESS) :=
  ⟨by decide,
   token_fail_closed demoEngine "alice:/orders" "alice" "/orders" (demoWorld none)
     (some HESSRA_PUBLIC_KEY_PATH) 4096 (by decide) (by decide)⟩

/-- Instance of C2: the default key loads, the service-chain verification is
refused (code `6`) and the call returns `false`. -/
theorem service_chain_fail_closed_witness :
    (4096 : KeyPtr) ≠ NULL ∧
    ∃ code : HessraResult,
      code = (demoEngine.hessra_token_verify_service_chain "alice:/orders" 4096 "alice"
        "/orders" "billing" "auditor"
        (demoEngine.hessra_public_key_from_file (some HESSRA_PUBLIC_KEY_PATH) NULL
          (demoWorld (some "")).engine).2).1 ∧
      (emitted (demoWorld (some ""))
          (pg_verify_hessra_service_chain demoEngine "alice:/orders" "alice" "/orders"
            "billing" "auditor" (demoWorld (some "")))).filter Event.isVerify
        = [Event.token_verify_service_chain "alice:/orders" 4096 "alice" "/orders"
            "billing" "auditor" code] ∧
      (pg_verify_hessra_service_chain demoEngine "alice:/orders" "alice" "/orders"
          "billing" "auditor" (demoWorld (some ""))).1
        = Outcome.ret (decide (code = demoEngine.SUCCESS)) ∧
      ((pg_verify_hessra_service_chain demoEngine "alice:/orders" "alice" "/orders"
          "billing" "auditor" (demoWorld (some ""))).1 = Outcome.ret true
        ↔ code = demoEngine.SUCCESS) ∧
      ∀ em : HessraResult → Nat → CStr × Nat,
        (pg_verify_hessra_service_chain { demoEngine with hessra_error_message := em }
            "alice:/orders" "alice" "/orders" "billing" "auditor" (demoWorld (some ""))).1
          = Outcome.ret (decide (code = demoEngine.SUCCESS)) :=
  ⟨by decide,
   service_chain_fail_closed demoEngine "alice:/orders" "alice" "/orders" "billing"
     "auditor" (demoWorld (some "")) (some HESSRA_PUBLIC_KEY_PATH) 4096
     (by decide) (by decide)⟩

/-- Instance of C4: the key at the configured path `/nonexistent.pem` is refused
with code `2`, and the token call ends in the `ERROR` report. -/
theorem key_load_failure_terminal_witness :
    ((2 : HessraResult) ≠ demoEngine.SUCCESS ∨ (0 : KeyPtr) = NULL) ∧
    ∃ (path : String) (msg : CStr),
      some "/nonexistent.pem" = some path ∧
      path = configuredKeyPath (demoWorld (some "/nonexistent.pem")).hessra_public_key_path ∧
      msg = (demoEngine.hessra_error_message 2
        (demoEngine.hessra_public_key_from_file (some "/nonexistent.pem") NULL
          (demoWorld (some "/nonexistent.pem")).engine).2).1 ∧
      Event.error_message 2 msg ∈ emitted (demoWorld (some "/nonexistent.pem"))
        ((SqlCall.verify_token "alice:/orders" "alice" "/orders").exec demoEngine
          (demoWorld (some "/nonexistent.pem"))) ∧
      ((SqlCall.verify_token "alice:/orders" "alice" "/orders").exec demoEngine
          (demoWorld (some "/nonexistent.pem"))).1 = Outcome.error
        ⟨ELevel.ERROR, some SqlErrCode.ERRCODE_EXTERNAL_ROUTINE_INVOCATION_EXCEPTION,
          "Failed to load Hessra public key from " ++ path ++ ": " ++
            safeMessage msg "Unknown key loading error"⟩ ∧
      (emitted (demoWorld (some "/nonexistent.pem"))
        ((SqlCall.verify_token "alice:/orders" "alice" "/orders").exec demoEngine
          (demoWorld (some "/nonexistent.pem")))).getLast? = some (Event.ereport
        ⟨ELevel.ERROR, some SqlErrCode.ERRCODE_EXTERNAL_ROUTINE_INVOCATION_EXCEPTION,
          "Failed to load Hessra public key from " ++ path ++ ": " ++
            safeMessage msg "Unknown key loading error"⟩) ∧
      (emitted (demoWorld (some "/nonexistent.pem"))
        ((SqlCall.verify_token "alice:/orders" "alice" "/orders").exec demoEngine
          (demoWorld (some "/nonexistent.pem")))).filter Event.isVerify = [] ∧
      ((SqlCall.verify_token "alice:/orders" "alice" "/orders").exec demoEngine
          (demoWorld (some "/nonexistent.pem"))).1 ≠ Outcome.ret true :=
  ⟨by decide,
   key_load_failure_terminal demoEngine
     (SqlCall.verify_token "alice:/orders" "alice" "/orders")
     (demoWorld (some "/nonexistent.pem")) (some "/nonexistent.pem") 2 0
     (by decide) (by decide)⟩

/-- Instance of C5: a service-chain call whose verification succeeds releases
the key `4096` last. -/
theorem key_released_once_witness :
    ∃ (pre : List Event) (code : HessraResult),
      engineCalls (emitted (demoWorld none)
          ((SqlCall.verify_service_chain "alice:/orders" "alice" "/orders" "billing"
            "billing").exec demoEngine (demoWorld none)))
        = pre ++ [Event.public_key_free 4096] ∧
      pre.filter Event.isKeyFree = [] ∧
      pre.filter Event.isVerify
        = [(SqlCall.verify_service_chain "alice:/orders" "alice" "/orders" "billing"
            "billing").verifyEvent 4096 code] :=
  key_released_once demoEngine
    (SqlCall.verify_service_chain "alice:/orders" "alice" "/orders" "billing" "billing")
    (demoWorld none) (some HESSRA_PUBLIC_KEY_PATH) 4096 (by decide) (by decide)

/-- Instance of C8: the concrete engine's results do not depend on its call
counter, so a token call gives the same outcome from a fresh process and from
one whose engine has already served 17 calls. -/
theorem shim_deterministic_witness :
    ((SqlCall.verify_token "alice:/orders" "alice" "/orders").exec demoEngine
        (demoWorld none)).1
      = ((SqlCall.verify_token "alice:/orders" "alice" "/orders").exec demoEngine
          { hessra_public_key_path := none, engine := 17, trace := [] }).1 :=
  (shim_deterministic demoEngine (fun _ _ _ _ => rfl) (fun _ _ _ _ _ _ => rfl)
    (fun _ _ _ _ _ _ _ _ => rfl) (fun _ _ _ => rfl)
    (SqlCall.verify_token "alice:/orders" "alice" "/orders")
    (demoWorld none) { hessra_public_key_path := none, engine := 17, trace := [] } rfl).1

end Hessra
